import Mathlib

/-!
Verification of the generic single-table CRUD layer (`src/main.go`):
the column-descriptor model, the validated write operations
(`Create`/`Update`/`Delete`), the filter compiler
(`PrepareWhere`/`PrepareWhereWithRootLogic`), and the schema synchronizer
(`Synchronize`).

Embedding conventions:
- Go maps (`map[string]any`, `map[string]map[string]string`) are modelled as
  association lists; iteration order, which Go leaves unspecified, is fixed
  to list order.
- The `*sql.DB` handle is external: each operation is modelled as a pure
  function returning the list of statements it would execute against the
  store, together with the error value it returns before reaching the store
  (if any).  A statement is its query text plus its bound arguments.
- A Go panic (a failing unchecked type assertion) is modelled by `Option`:
  `none` is a panic, `some r` is a normal return with result `r`.
- Go `strings.HasPrefix` / `HasSuffix` / `TrimSuffix` operate on bytes; for
  valid UTF-8 (and in particular for the one-character ASCII suffixes the
  code uses) they agree with the character-list versions used here.
-/

set_option maxHeartbeats 1000000

namespace Scrud

mutual
/-- A value of the Go `any` type as this program uses it: a string scalar,
an integer scalar, or a nested filter map (`map[string]any`). -/
inductive Val where
  | str (s : String)
  | int (n : Int)
  | vmap (m : FilterMap)

/-- A Go `map[string]any` filter, as an ordered association list of
key/value entries. -/
inductive FilterMap where
  | nil
  | cons (key : String) (value : Val) (rest : FilterMap)
end

/-- The entries of a filter map as an ordinary list. -/
def FilterMap.toList : FilterMap → List (String × Val)
  | .nil => []
  | .cons k v rest => (k, v) :: rest.toList

instance (o : Option Val) : Decidable (o = none) :=
  decidable_of_iff (o.isNone = true) (by cases o <;> simp)

/-- Tests whether a `Val` is a string (a Go `value.(string)` assertion
succeeds exactly on these). -/
def isStr : Val → Bool
  | .str _ => true
  | _ => false

/-- Tests whether a `Val` is a nested map (a Go `value.(map[string]any)`
assertion succeeds exactly on these). -/
def isVmap : Val → Bool
  | .str _ => false
  | .int _ => false
  | .vmap _ => true

/-- Go `strings.HasPrefix s p`. -/
def hasPre (s p : String) : Bool :=
  List.isPrefixOf p.data s.data

/-- Go `strings.HasSuffix s suf`. -/
def hasSuf (s suf : String) : Bool :=
  List.isSuffixOf suf.data s.data

/-- Go `strings.TrimSuffix s suf`. -/
def trimSuf (s suf : String) : String :=
  if hasSuf s suf then String.mk (s.data.take (s.data.length - suf.data.length)) else s

/-- One column's property bag (Go `map[string]string` with the fixed keys
`TYPE`, `NAME`, `NOT_NULL`, `DEFAULT`, `INDEX`, `UNIQUE`, `AUTO_INCREMENT`;
a key the Go code reads but the map does not carry yields `""`, the
string default). -/
structure ColProps where
  TYPE : String := ""
  NAME : String := ""
  NOT_NULL : String := ""
  DEFAULT : String := ""
  INDEX : String := ""
  UNIQUE : String := ""
  AUTO_INCREMENT : String := ""
  deriving DecidableEq, Repr

/-- The `CRUD` struct: table name and structure (the `*sql.DB` handle is the
external store and is not part of the model). -/
structure CRUD where
  Table : String
  Structure : List (String × ColProps)
  deriving DecidableEq, Repr

/-- One statement executed against the store: query text plus bound
arguments (`none` models the Go `nil` that `data[col]` yields for an
absent key). -/
structure ExecCall where
  query : String
  args : List (Option Val)

mutual
/-- Go `fmt.Sprintf("%v", value)` for the values this program renders.
(For nested maps, Go additionally sorts the keys when printing; no code
path exercised by a claim renders a map value as a scalar.) -/
def fmtVal : Val → String
  | .str s => s
  | .int n => toString n
  | .vmap m => "map[" ++ fmtEntries m ++ "]"

def fmtEntries : FilterMap → String
  | .nil => ""
  | .cons k v .nil => k ++ ":" ++ fmtVal v
  | .cons k v (.cons k2 v2 rest) => k ++ ":" ++ fmtVal v ++ " " ++ fmtEntries (.cons k2 v2 rest)
end

/-- The OR-group test of source line 106: the key equals `[OR]` or starts
with `[OR]` (the equality test is subsumed by the prefix test; both are
kept as written). -/
def isORKey (key : String) : Bool :=
  key == "[OR]" || hasPre key "[OR]"

/-- The AND-group test of source line 115. -/
def isANDKey (key : String) : Bool :=
  key == "[AND]" || hasPre key "[AND]"

/-- The leaf analysis of source lines 126-147: derive the column, the
comparison operator and the rendered value from the key's trailing suffix
(`>`/`<`/`=`/`%`, none defaults to `=`); for `%` the value is asserted to
be a string (`none` models the panic of a failing assertion) and wrapped
in `%` wildcards. -/
def leafOf (key : String) (value : Val) : Option (String × String × String) :=
  if hasSuf key ">" then some (trimSuf key ">", ">", fmtVal value)
  else if hasSuf key "<" then some (trimSuf key "<", "<", fmtVal value)
  else if hasSuf key "=" then some (trimSuf key "=", "=", fmtVal value)
  else if hasSuf key "%" then
    match value with
    | .str s => some (trimSuf key "%", "LIKE", "%" ++ s ++ "%")
    | _ => none
  else some (key, "=", fmtVal value)

/-- The final step of `PrepareWhereWithRootLogic` (source lines 161-164):
with at least one condition, join with the logic operator and return `nil`
errors; otherwise return the empty string together with the gathered
errors. -/
def joinConds (logic : String) : List String × List String → String × List String
  | (conds, errs) =>
    if conds.length > 0 then (String.intercalate (" " ++ logic ++ " ") conds, [])
    else ("", errs)

mutual
/-- The `value.(map[string]any)` assertion of the group branches (source
lines 107 and 117) followed by the recursive call to
`PrepareWhereWithRootLogic` on the nested group; `none` models the panic
of a failing assertion. -/
def groupVal (c : CRUD) (logic : String) : Val → Option (String × List String)
  | .str _ => none
  | .int _ => none
  | .vmap sub => (goEntries c logic sub).map (joinConds logic)

/-- The loop body of `PrepareWhereWithRootLogic` (source lines 104-158),
processing the filter entries in order and accumulating the condition
strings and the error messages; `none` models a panic of a failing type
assertion. -/
def goEntries (c : CRUD) (logic : String) : FilterMap → Option (List String × List String)
  | .nil => some ([], [])
  | .cons key value rest =>
    if isORKey key then
      match groupVal c "OR" value with
      | none => none
      | some (orClause, orErrors) =>
        match goEntries c logic rest with
        | none => none
        | some (conds, errs) =>
          some ((if orClause != "" then ["(" ++ orClause ++ ")"] else []) ++ conds,
                orErrors ++ errs)
    else if isANDKey key then
      match groupVal c "AND" value with
      | none => none
      | some (andClause, andErrors) =>
        match goEntries c logic rest with
        | none => none
        | some (conds, errs) =>
          some ((if andClause != "" then ["(" ++ andClause ++ ")"] else []) ++ conds,
                andErrors ++ errs)
    else
      match leafOf key value with
      | none => none
      | some (column, comparison, vstr) =>
        match goEntries c logic rest with
        | none => none
        | some (conds, errs) =>
          if (c.Structure.lookup column).isSome then
            some ((column ++ " " ++ comparison ++ " \"" ++ vstr ++ "\"") :: conds, errs)
          else
            some (conds,
              ("field \x27" ++ column ++ "\x27 does not exist in the structure") :: errs)
end

/-- `PrepareWhereWithRootLogic` (source lines 100-165): compile the filter
map with the given logic operator, returning the predicate string and the
error list, or `none` on a panic. -/
def CRUD.PrepareWhereWithRootLogic (c : CRUD) (filter : FilterMap) (logic : String) :
    Option (String × List String) :=
  (goEntries c logic filter).map (joinConds logic)

/-- `PrepareWhere` (source lines 96-98): root logic is `AND`. -/
def CRUD.PrepareWhere (c : CRUD) (filter : FilterMap) : Option (String × List String) :=
  c.PrepareWhereWithRootLogic filter "AND"

/-- The required-field test of `Create`/`Update` (source lines 31-37 and
61-67) for one structure entry: NOT NULL, no default, not auto-increment,
and no entry in the input map. -/
def requiredMissingB (data : List (String × Val)) (p : String × ColProps) : Bool :=
  p.2.NOT_NULL == "true" && p.2.DEFAULT == "" && p.2.AUTO_INCREMENT != "true"
    && (data.lookup p.1).isNone

/-- `Create` (source lines 29-56): validation first, then one insert
statement over exactly the structure's columns.  Result: the statements
issued against the store and the error returned before reaching the store
(if any). -/
def CRUD.Create (c : CRUD) (data : List (String × Val)) : List ExecCall × Option String :=
  match c.Structure.find? (requiredMissingB data) with
  | some p => ([], some ("field \x27" ++ p.1 ++ "\x27 cannot be null"))
  | none =>
    let columns := c.Structure.map (fun p => p.1)
    ([{ query := "INSERT INTO " ++ c.Table ++ " (" ++ String.intercalate ", " columns
          ++ ") VALUES (" ++ String.intercalate ", " (columns.map (fun _ => "?")) ++ ")",
        args := columns.map (fun col => data.lookup col) }], none)

/-- `Update` (source lines 59-86): same validation as `Create`, then one
update statement whose SET clause covers exactly the input map's columns,
with a trailing `WHERE id = ?` bound to the given id. -/
def CRUD.Update (c : CRUD) (id : String) (data : List (String × Val)) :
    List ExecCall × Option String :=
  match c.Structure.find? (requiredMissingB data) with
  | some p => ([], some ("field \x27" ++ p.1 ++ "\x27 cannot be null"))
  | none =>
    ([{ query := "UPDATE " ++ c.Table ++ " SET "
          ++ String.intercalate ", " (data.map (fun p => p.1 ++ " = ?"))
          ++ " WHERE id = ?",
        args := data.map (fun p => some p.2) ++ [some (Val.str id)] }], none)

/-- `Delete` on the base `CRUD` (source lines 89-93): one delete-by-id
statement, no checks. -/
def CRUD.Delete (c : CRUD) (id : String) : List ExecCall × Option String :=
  ([{ query := "DELETE FROM " ++ c.Table ++ " WHERE id = ?",
      args := [some (Val.str id)] }], none)

/-- The `users` structure defined in `NewUserCRUD` (source lines 304-332). -/
def userStructure : List (String × ColProps) :=
  [("id", { TYPE := "int", NAME := "ID", NOT_NULL := "true", DEFAULT := "",
            INDEX := "yes", UNIQUE := "yes", AUTO_INCREMENT := "true" }),
   ("name", { TYPE := "varchar(255)", NAME := "Name", NOT_NULL := "true", DEFAULT := "",
              INDEX := "yes", UNIQUE := "no", AUTO_INCREMENT := "false" }),
   ("email", { TYPE := "varchar(255)", NAME := "Email", NOT_NULL := "true", DEFAULT := "",
               INDEX := "no", UNIQUE := "yes", AUTO_INCREMENT := "false" })]

/-- The `CRUD` instance embedded in `NewUserCRUD` (source lines 335-338). -/
def userCRUD : CRUD :=
  { Table := "users", Structure := userStructure }

/-- The overridden `Delete` of `UserCRUD` (source lines 342-347): id `"1"`
is rejected before any store call; every other id delegates to the base
`CRUD.Delete`. -/
def UserCRUD.Delete (id : String) : List ExecCall × Option String :=
  if id == "1" then ([], some "deletion forbidden for user with ID = 1")
  else userCRUD.Delete id

/-- One live column as `SHOW COLUMNS` reports it and as `Synchronize` scans
it (source lines 220-233): declared type, nullability, key role, default,
extra attributes. -/
structure LiveCol where
  COL_TYPE : String := ""
  NULL : String := ""
  KEY : String := ""
  DEFAULT : String := ""
  EXTRA : String := ""
  deriving DecidableEq, Repr

/-- One field definition of the create-table statement (source lines
188-201): `name type [NOT NULL] [DEFAULT literal] [AUTO_INCREMENT]`. -/
def fieldDef (col : String) (p : ColProps) : String :=
  col ++ " " ++ p.TYPE
    ++ (if p.NOT_NULL == "true" then " NOT NULL" else "")
    ++ (if p.DEFAULT != "" then " DEFAULT " ++ p.DEFAULT else "")
    ++ (if p.AUTO_INCREMENT == "true" then " AUTO_INCREMENT" else "")

/-- The `primaryKeyColumn` variable of `Synchronize` (source lines 187-199):
the last structure column in iteration order with `AUTO_INCREMENT = "true"`,
or the empty string if there is none. -/
def primaryKeyColumn (struct : List (String × ColProps)) : String :=
  struct.foldl (fun acc p => if p.2.AUTO_INCREMENT == "true" then p.1 else acc) ""

/-- The create-table statement (source lines 204-205). -/
def createTableQuery (c : CRUD) : String :=
  "CREATE TABLE " ++ c.Table ++ " ("
    ++ String.intercalate ", " (c.Structure.map (fun p => fieldDef p.1 p.2))
    ++ ", PRIMARY KEY (" ++ primaryKeyColumn c.Structure ++ "))"

/-- The alter statement for a column whose live definition differs (source
lines 243-252). -/
def modifyColumnQuery (c : CRUD) (col : String) (p : ColProps) : String :=
  "ALTER TABLE " ++ c.Table ++ " MODIFY " ++ col ++ " " ++ p.TYPE
    ++ (if p.NOT_NULL == "true" then " NOT NULL" else "")
    ++ (if p.DEFAULT != "" then " DEFAULT " ++ p.DEFAULT else "")
    ++ (if p.AUTO_INCREMENT == "true" then " AUTO_INCREMENT" else "")

/-- The add-column statement for a structure column absent live (source
lines 260-269). -/
def addColumnQuery (c : CRUD) (col : String) (p : ColProps) : String :=
  "ALTER TABLE " ++ c.Table ++ " ADD COLUMN " ++ col ++ " " ++ p.TYPE
    ++ (if p.NOT_NULL == "true" then " NOT NULL" else "")
    ++ (if p.DEFAULT != "" then " DEFAULT " ++ p.DEFAULT else "")
    ++ (if p.AUTO_INCREMENT == "true" then " AUTO_INCREMENT" else "")

/-- The column-reconciliation loop of `Synchronize` (source lines 237-275):
for each structure column, modify it if its live definition differs, add it
if it is absent live; live-only columns are untouched. -/
def alterStmtsFor (c : CRUD) (current : List (String × LiveCol)) :
    List (String × ColProps) → List String
  | [] => []
  | p :: rest =>
    (match current.lookup p.1 with
     | some info =>
       if info.COL_TYPE != p.2.TYPE
           || (p.2.NOT_NULL == "true" && info.NULL == "YES")
           || (p.2.DEFAULT != "" && info.DEFAULT != p.2.DEFAULT)
       then [modifyColumnQuery c p.1 p.2] else []
     | none => [addColumnQuery c p.1 p.2]) ++ alterStmtsFor c current rest

/-- The primary-key loop of `Synchronize` (source lines 278-290): for the
first structure column with `AUTO_INCREMENT = "true"` (the loop breaks
after it), add it as primary key when it exists live and its live key role
is not `PRI`. -/
def primaryKeyStmtFor (c : CRUD) (current : List (String × LiveCol)) :
    List (String × ColProps) → List String
  | [] => []
  | p :: rest =>
    if p.2.AUTO_INCREMENT == "true" then
      match current.lookup p.1 with
      | some info =>
        if info.KEY != "PRI"
        then ["ALTER TABLE " ++ c.Table ++ " ADD PRIMARY KEY (" ++ p.1 ++ ")"] else []
      | none => []
    else primaryKeyStmtFor c current rest

/-- `Synchronize` (source lines 175-294) as a function of the live schema
the external store reports: `none` when the table does not exist (the
information-schema count is zero), `some current` when it exists with the
given live columns.  The result is the list of data-definition statements
issued (the existence check and `SHOW COLUMNS` are reads, not mutations);
statement failures come from the external store and end the run early, so
the list is the statements of a run in which the store accepts each one. -/
def CRUD.Synchronize (c : CRUD) (live : Option (List (String × LiveCol))) : List String :=
  match live with
  | none => [createTableQuery c]
  | some current => alterStmtsFor c current c.Structure ++ primaryKeyStmtFor c current c.Structure

/-- Modelled from the spec: the live schema of the external store (storage
is an external collaborator, section 1 of the spec) after a successful
create-table statement built by `Synchronize`, as `SHOW COLUMNS` reports
it: every structure column with its declared type, `NULL` reflecting
`NOT NULL`, the declared default, `PRI` on the declared primary-key
column, and `auto_increment` among the extra attributes. -/
def createdLive (c : CRUD) : List (String × LiveCol) :=
  c.Structure.map (fun p =>
    (p.1, { COL_TYPE := p.2.TYPE,
            NULL := if p.2.NOT_NULL == "true" then "NO" else "YES",
            KEY := if p.1 == primaryKeyColumn c.Structure then "PRI" else "",
            DEFAULT := p.2.DEFAULT,
            EXTRA := if p.2.AUTO_INCREMENT == "true" then "auto_increment" else "" }))

/-- A filter entry on which `PrepareWhereWithRootLogic` panics: a group-tag
key whose value is not a nested map (the `value.(map[string]any)` assertion
fails), or a non-group key with the `%` suffix whose value is not a string
(the `value.(string)` assertion fails). -/
def panicEntry (key : String) (value : Val) : Prop :=
  ((isORKey key || isANDKey key) = true ∧ isVmap value = false)
  ∨ (isORKey key = false ∧ isANDKey key = false ∧ hasSuf key "%" = true
      ∧ isStr value = false)

instance (key : String) (value : Val) : Decidable (panicEntry key value) := by
  unfold panicEntry
  infer_instance

/-! Step lemmas for `goEntries`, one per branch of the loop body. -/

theorem goEntries_nil (c : CRUD) (logic : String) :
    goEntries c logic .nil = some ([], []) := rfl

theorem goEntries_group_or (c : CRUD) (logic key : String) (value : Val) (rest : FilterMap)
    (hor : isORKey key = true)
    (cl : String) (er : List String) (hsub : groupVal c "OR" value = some (cl, er))
    (conds errs : List String) (hrest : goEntries c logic rest = some (conds, errs)) :
    goEntries c logic (.cons key value rest)
      = some ((if cl != "" then ["(" ++ cl ++ ")"] else []) ++ conds, er ++ errs) := by
  simp only [goEntries, hor, hsub, hrest, if_true]

theorem goEntries_group_and (c : CRUD) (logic key : String) (value : Val) (rest : FilterMap)
    (hor : isORKey key = false) (hand : isANDKey key = true)
    (cl : String) (er : List String) (hsub : groupVal c "AND" value = some (cl, er))
    (conds errs : List String) (hrest : goEntries c logic rest = some (conds, errs)) :
    goEntries c logic (.cons key value rest)
      = some ((if cl != "" then ["(" ++ cl ++ ")"] else []) ++ conds, er ++ errs) := by
  simp only [goEntries, hor, hand, hsub, hrest, Bool.false_eq_true, if_false, if_true]

theorem goEntries_leaf_found (c : CRUD) (logic key : String) (value : Val) (rest : FilterMap)
    (hor : isORKey key = false) (hand : isANDKey key = false)
    (col cmp vstr : String) (hleaf : leafOf key value = some (col, cmp, vstr))
    (hfound : (c.Structure.lookup col).isSome = true)
    (conds errs : List String) (hrest : goEntries c logic rest = some (conds, errs)) :
    goEntries c logic (.cons key value rest)
      = some ((col ++ " " ++ cmp ++ " \"" ++ vstr ++ "\"") :: conds, errs) := by
  simp only [goEntries, hor, hand, hleaf, hrest, hfound, Bool.false_eq_true, if_false, if_true]

theorem goEntries_leaf_unknown (c : CRUD) (logic key : String) (value : Val) (rest : FilterMap)
    (hor : isORKey key = false) (hand : isANDKey key = false)
    (col cmp vstr : String) (hleaf : leafOf key value = some (col, cmp, vstr))
    (hmiss : c.Structure.lookup col = none)
    (conds errs : List String) (hrest : goEntries c logic rest = some (conds, errs)) :
    goEntries c logic (.cons key value rest)
      = some (conds, ("field \x27" ++ col ++ "\x27 does not exist in the structure") :: errs) := by
  simp only [goEntries, hor, hand, hleaf, hrest, hmiss, Option.isSome_none,
    Bool.false_eq_true, if_false]

theorem goEntries_leaf_panic (c : CRUD) (logic key : String) (value : Val) (rest : FilterMap)
    (hor : isORKey key = false) (hand : isANDKey key = false)
    (hleaf : leafOf key value = none) :
    goEntries c logic (.cons key value rest) = none := by
  simp only [goEntries, hor, hand, hleaf, Bool.false_eq_true, if_false]

theorem goEntries_group_panic (c : CRUD) (logic key : String) (value : Val) (rest : FilterMap)
    (hgroup : (isORKey key || isANDKey key) = true) (hv : isVmap value = false) :
    goEntries c logic (.cons key value rest) = none := by
  have hgv : ∀ lg, groupVal c lg value = none := by
    intro lg
    cases value with
    | str s => rfl
    | int n => rfl
    | vmap m => simp [isVmap] at hv
  by_cases hor : isORKey key = true
  · simp [goEntries, hor, hgv]
  · have hor' : isORKey key = false := by simpa using hor
    have hand : isANDKey key = true := by
      rcases Bool.or_eq_true_iff.mp hgroup with h | h
      · exact absurd h hor
      · exact h
    simp [goEntries, hor', hand, hgv]

theorem goEntries_cons_of_rest_none (c : CRUD) (logic key : String) (value : Val)
    (rest : FilterMap) (hrest : goEntries c logic rest = none) :
    goEntries c logic (.cons key value rest) = none := by
  by_cases hor : isORKey key = true
  · cases hgv : groupVal c "OR" value with
    | none => simp [goEntries, hor, hgv]
    | some p =>
      obtain ⟨cl, er⟩ := p
      simp [goEntries, hor, hgv, hrest]
  · have hor' : isORKey key = false := by simpa using hor
    by_cases hand : isANDKey key = true
    · cases hgv : groupVal c "AND" value with
      | none => simp [goEntries, hor', hand, hgv]
      | some p =>
        obtain ⟨cl, er⟩ := p
        simp [goEntries, hor', hand, hgv, hrest]
    · have hand' : isANDKey key = false := by simpa using hand
      cases hlf : leafOf key value with
      | none => simp [goEntries, hor', hand', hlf]
      | some t =>
        obtain ⟨col, cmp, vs⟩ := t
        simp [goEntries, hor', hand', hlf, hrest]

/-- Claim C1 (code-bug exhibit): on the filter with the valid leaf
`name = Bob` and the invalid leaf `ghost = x` at the same (root) level
against the `users` descriptor, `PrepareWhere` returns the partial
predicate compiled from the valid entry together with an EMPTY error
list: because at least one condition was compiled, source line 162
returns `nil` for the errors and the accumulated unknown-column error
for `ghost` is discarded, contrary to the claim and the spec. -/
theorem prepareWhere_discards_errors_with_predicate :
    userCRUD.PrepareWhere (.cons "name" (.str "Bob") (.cons "ghost" (.str "x") .nil))
      = some ("name = \"Bob\"", []) := by
  decide

/-- Claim C2: against any descriptor without a column `ghost`, the filter
with the single entry `ghost = x` compiles to the empty predicate with
exactly one error, and that error names `ghost` (it occurs in the message
text). -/
theorem prepareWhere_unknown_column_yields_error (c : CRUD)
    (h : c.Structure.lookup "ghost" = none) :
    c.PrepareWhere (.cons "ghost" (.str "x") .nil)
      = some ("", ["field \x27ghost\x27 does not exist in the structure"])
    ∧ "ghost".data <:+: ("field \x27ghost\x27 does not exist in the structure").data := by
  constructor
  · have e : goEntries c "AND" (.cons "ghost" (.str "x") .nil)
        = some ([], ["field \x27ghost\x27 does not exist in the structure"]) :=
      goEntries_leaf_unknown c "AND" "ghost" (.str "x") .nil (by decide) (by decide)
        "ghost" "=" "x" (by decide) h [] [] (goEntries_nil c "AND")
    show (goEntries c "AND" (.cons "ghost" (.str "x") .nil)).map (joinConds "AND")
        = some ("", ["field \x27ghost\x27 does not exist in the structure"])
    rw [e]
    rfl
  · decide

theorem prepareWhere_unknown_column_yields_error_witness :
    userCRUD.PrepareWhere (.cons "ghost" (.str "x") .nil)
      = some ("", ["field \x27ghost\x27 does not exist in the structure"])
    ∧ "ghost".data <:+: ("field \x27ghost\x27 does not exist in the structure").data :=
  prepareWhere_unknown_column_yields_error userCRUD (by decide)

/-- Claim C3: against any descriptor with a column `id`, the filter
consisting of one `[OR]` group with entries `id> = 1` and `id< = 2`
compiles (root logic AND) to the parenthesised OR-joined predicate with
the integer values rendered inside double quotes, and an empty error
list. -/
theorem prepareWhere_or_group (c : CRUD) (p : ColProps)
    (h : c.Structure.lookup "id" = some p) :
    c.PrepareWhere
        (.cons "[OR]" (.vmap (.cons "id>" (.int 1) (.cons "id<" (.int 2) .nil))) .nil)
      = some ("(id > \"1\" OR id < \"2\")", []) := by
  have hfound : (c.Structure.lookup "id").isSome = true := by rw [h]; rfl
  have e2 : goEntries c "OR" (.cons "id<" (.int 2) .nil) = some (["id < \"2\""], []) := by
    rw [goEntries_leaf_found c "OR" "id<" (.int 2) .nil (by decide) (by decide)
      "id" "<" "2" (by decide) hfound [] [] (goEntries_nil c "OR")]
    rfl
  have e1 : goEntries c "OR" (.cons "id>" (.int 1) (.cons "id<" (.int 2) .nil))
      = some (["id > \"1\"", "id < \"2\""], []) := by
    rw [goEntries_leaf_found c "OR" "id>" (.int 1) (.cons "id<" (.int 2) .nil)
      (by decide) (by decide) "id" ">" "1" (by decide) hfound ["id < \"2\""] [] e2]
    rfl
  have eg : groupVal c "OR" (.vmap (.cons "id>" (.int 1) (.cons "id<" (.int 2) .nil)))
      = some ("id > \"1\" OR id < \"2\"", []) := by
    show (goEntries c "OR" (.cons "id>" (.int 1) (.cons "id<" (.int 2) .nil))).map
        (joinConds "OR") = some ("id > \"1\" OR id < \"2\"", [])
    rw [e1]
    rfl
  have etop := goEntries_group_or c "AND" "[OR]"
    (.vmap (.cons "id>" (.int 1) (.cons "id<" (.int 2) .nil))) .nil (by decide)
    "id > \"1\" OR id < \"2\"" [] eg [] [] (goEntries_nil c "AND")
  show (goEntries c "AND"
      (.cons "[OR]" (.vmap (.cons "id>" (.int 1) (.cons "id<" (.int 2) .nil))) .nil)).map
      (joinConds "AND") = some ("(id > \"1\" OR id < \"2\")", [])
  rw [etop]
  rfl

theorem prepareWhere_or_group_witness :
    userCRUD.PrepareWhere
        (.cons "[OR]" (.vmap (.cons "id>" (.int 1) (.cons "id<" (.int 2) .nil))) .nil)
      = some ("(id > \"1\" OR id < \"2\")", []) :=
  prepareWhere_or_group userCRUD
    { TYPE := "int", NAME := "ID", NOT_NULL := "true", DEFAULT := "",
      INDEX := "yes", UNIQUE := "yes", AUTO_INCREMENT := "true" } (by decide)

/-- Claim C4: against any descriptor with columns `name` and `email`, the
filter with entries `name = Bob` and `email% = @example.com` compiles with
default AND logic to `name = "Bob" AND email LIKE "%@example.com%"` (the
`%`-suffixed entry's value wrapped in `%` wildcards on both sides) with an
empty error list. -/
theorem prepareWhere_like_and (c : CRUD) (pn pe : ColProps)
    (hn : c.Structure.lookup "name" = some pn)
    (he : c.Structure.lookup "email" = some pe) :
    c.PrepareWhere (.cons "name" (.str "Bob") (.cons "email%" (.str "@example.com") .nil))
      = some ("name = \"Bob\" AND email LIKE \"%@example.com%\"", []) := by
  have hfn : (c.Structure.lookup "name").isSome = true := by rw [hn]; rfl
  have hfe : (c.Structure.lookup "email").isSome = true := by rw [he]; rfl
  have e2 : goEntries c "AND" (.cons "email%" (.str "@example.com") .nil)
      = some (["email LIKE \"%@example.com%\""], []) := by
    rw [goEntries_leaf_found c "AND" "email%" (.str "@example.com") .nil
      (by decide) (by decide) "email" "LIKE" "%@example.com%" (by decide) hfe
      [] [] (goEntries_nil c "AND")]
    rfl
  have e1 : goEntries c "AND"
      (.cons "name" (.str "Bob") (.cons "email%" (.str "@example.com") .nil))
      = some (["name = \"Bob\"", "email LIKE \"%@example.com%\""], []) := by
    rw [goEntries_leaf_found c "AND" "name" (.str "Bob")
      (.cons "email%" (.str "@example.com") .nil) (by decide) (by decide)
      "name" "=" "Bob" (by decide) hfn ["email LIKE \"%@example.com%\""] [] e2]
    rfl
  show (goEntries c "AND"
      (.cons "name" (.str "Bob") (.cons "email%" (.str "@example.com") .nil))).map
      (joinConds "AND") = some ("name = \"Bob\" AND email LIKE \"%@example.com%\"", [])
  rw [e1]
  rfl

theorem prepareWhere_like_and_witness :
    userCRUD.PrepareWhere
        (.cons "name" (.str "Bob") (.cons "email%" (.str "@example.com") .nil))
      = some ("name = \"Bob\" AND email LIKE \"%@example.com%\"", []) :=
  prepareWhere_like_and userCRUD
    { TYPE := "varchar(255)", NAME := "Name", NOT_NULL := "true", DEFAULT := "",
      INDEX := "yes", UNIQUE := "no", AUTO_INCREMENT := "false" }
    { TYPE := "varchar(255)", NAME := "Email", NOT_NULL := "true", DEFAULT := "",
      INDEX := "no", UNIQUE := "yes", AUTO_INCREMENT := "false" }
    (by decide) (by decide)

theorem isPrefixOf_single_excl {l : List Char} {c₁ c₂ : Char} (hne : c₂ ≠ c₁)
    (h : List.isPrefixOf [c₁] l = true) : List.isPrefixOf [c₂] l = false := by
  cases l with
  | nil => simp [List.isPrefixOf] at h
  | cons b bs =>
    simp [List.isPrefixOf] at h ⊢
    subst h
    exact hne

/-- A string ending in one single character does not end in a different
single character. -/
theorem hasSuf_single_excl {s : String} {c₁ c₂ : Char} (hne : c₂ ≠ c₁)
    (h : hasSuf s (String.mk [c₁]) = true) : hasSuf s (String.mk [c₂]) = false := by
  unfold hasSuf List.isSuffixOf at h ⊢
  simp only [String.data] at h ⊢
  exact isPrefixOf_single_excl hne h

/-- A `%`-suffixed key whose value is not a string makes the leaf analysis
panic (the `value.(string)` assertion of source line 143 fails). -/
theorem leafOf_none_of_pct {key : String} {value : Val}
    (hp : hasSuf key "%" = true) (hv : isStr value = false) :
    leafOf key value = none := by
  have hgt : hasSuf key ">" = false := hasSuf_single_excl (by decide) hp
  have hlt : hasSuf key "<" = false := hasSuf_single_excl (by decide) hp
  have heq : hasSuf key "=" = false := hasSuf_single_excl (by decide) hp
  cases value with
  | str s => simp [isStr] at hv
  | int n => simp [leafOf, hgt, hlt, heq, hp]
  | vmap m => simp [leafOf, hgt, hlt, heq, hp]

/-- Any filter map containing a panicking entry at its top level makes the
entry loop panic. -/
theorem goEntries_none_of_panicEntry (c : CRUD) (logic : String) :
    ∀ fm : FilterMap, (∃ e ∈ fm.toList, panicEntry e.1 e.2) →
      goEntries c logic fm = none
  | .nil, h => by simp [FilterMap.toList] at h
  | .cons key value rest, h => by
    rcases h with ⟨e, he, ht⟩
    rw [FilterMap.toList, List.mem_cons] at he
    rcases he with rfl | he
    · rcases ht with ⟨hg, hv⟩ | ⟨hor, hand, hp, hs⟩
      · exact goEntries_group_panic c logic key value rest hg hv
      · exact goEntries_leaf_panic c logic key value rest hor hand
          (leafOf_none_of_pct hp hs)
    · exact goEntries_cons_of_rest_none c logic key value rest
        (goEntries_none_of_panicEntry c logic rest ⟨e, he, ht⟩)

/-- Claim C10, counterexample to the claim as stated: the entry with key
`[OR]%` and a nested-map value has a key that ends in `%` and a value
that is not a string, yet `PrepareWhere` does not panic — the group-tag
test of source line 106 runs first, so the `value.(string)` assertion of
the `%` branch is never reached for group-tagged keys. -/
theorem prepareWhere_pct_key_no_panic :
    hasSuf "[OR]%" "%" = true
    ∧ isStr (Val.vmap (.cons "id>" (.int 1) .nil)) = false
    ∧ (userCRUD.PrepareWhere
        (.cons "[OR]%" (.vmap (.cons "id>" (.int 1) .nil)) .nil)).isSome = true := by
  decide

/-- Claim C10, amended: `PrepareWhere` panics on every filter containing a
top-level entry whose key is a group tag (equals or starts with `[OR]` or
`[AND]`) with a value that is not a nested map, and on every entry whose
key ends in `%`, is NOT a group tag, and has a value that is not a
string. -/
theorem prepareWhere_panics_on_bad_entry (c : CRUD) (filter : FilterMap)
    (h : ∃ e ∈ filter.toList, panicEntry e.1 e.2) :
    c.PrepareWhere filter = none := by
  show (goEntries c "AND" filter).map (joinConds "AND") = none
  rw [goEntries_none_of_panicEntry c "AND" filter h]
  rfl

theorem prepareWhere_panics_on_bad_entry_witness :
    userCRUD.PrepareWhere (.cons "id%" (.int 1) .nil) = none
    ∧ userCRUD.PrepareWhere (.cons "[OR]" (.int 1) .nil) = none :=
  ⟨prepareWhere_panics_on_bad_entry userCRUD (.cons "id%" (.int 1) .nil) (by decide),
   prepareWhere_panics_on_bad_entry userCRUD (.cons "[OR]" (.int 1) .nil) (by decide)⟩

/-- The per-column test of `requiredMissingB` unfolded into propositional
form. -/
theorem requiredMissingB_iff (data : List (String × Val)) (p : String × ColProps) :
    requiredMissingB data p = true ↔
      p.2.NOT_NULL = "true" ∧ p.2.DEFAULT = "" ∧ p.2.AUTO_INCREMENT ≠ "true"
        ∧ data.lookup p.1 = none := by
  simp [requiredMissingB, Option.isNone_iff_eq_none, and_assoc]

/-- Claim C5: `Create` returns a validation error if and only if some
descriptor column is NOT NULL with no default and not auto-increment and
has no entry in the input map; whenever it does, the error names such a
missing column and no statement is issued against the store. -/
theorem Create_required_field_validation (c : CRUD) (data : List (String × Val)) :
    ((c.Create data).2.isSome = true
      ↔ ∃ p ∈ c.Structure, p.2.NOT_NULL = "true" ∧ p.2.DEFAULT = ""
          ∧ p.2.AUTO_INCREMENT ≠ "true" ∧ data.lookup p.1 = none)
    ∧ (∀ e, (c.Create data).2 = some e →
        (c.Create data).1 = []
        ∧ ∃ p ∈ c.Structure, p.2.NOT_NULL = "true" ∧ p.2.DEFAULT = ""
            ∧ p.2.AUTO_INCREMENT ≠ "true" ∧ data.lookup p.1 = none
            ∧ e = "field \x27" ++ p.1 ++ "\x27 cannot be null") := by
  cases hf : c.Structure.find? (requiredMissingB data) with
  | none =>
    have hall := List.find?_eq_none.mp hf
    constructor
    · simp only [CRUD.Create, hf]
      constructor
      · intro hs
        simp at hs
      · rintro ⟨p, hp, hprop⟩
        exact absurd ((requiredMissingB_iff data p).mpr hprop) (by simpa using hall p hp)
    · intro e he
      rw [CRUD.Create, hf] at he
      simp at he
  | some p =>
    have hpred := (requiredMissingB_iff data p).mp (List.find?_some hf)
    have hmem := List.mem_of_find?_eq_some hf
    constructor
    · simp only [CRUD.Create, hf]
      exact ⟨fun _ => ⟨p, hmem, hpred⟩, fun _ => rfl⟩
    · intro e he
      rw [CRUD.Create, hf] at he
      simp only [Option.some.injEq] at he
      exact ⟨by simp [CRUD.Create, hf],
        ⟨p, hmem, hpred.1, hpred.2.1, hpred.2.2.1, hpred.2.2.2, he.symm⟩⟩

theorem Create_required_field_validation_witness :
    (userCRUD.Create [("email", Val.str "x@example.com")]).1 = []
    ∧ ∃ p ∈ userCRUD.Structure, p.2.NOT_NULL = "true" ∧ p.2.DEFAULT = ""
        ∧ p.2.AUTO_INCREMENT ≠ "true"
        ∧ [("email", Val.str "x@example.com")].lookup p.1 = none
        ∧ "field \x27name\x27 cannot be null" = "field \x27" ++ p.1 ++ "\x27 cannot be null" :=
  (Create_required_field_validation userCRUD [("email", Val.str "x@example.com")]).2
    "field \x27name\x27 cannot be null" rfl

/-- Claim C6: `Update` runs exactly the required-field validation of
`Create` against the full descriptor (so `Update id {}` is rejected
whenever the descriptor has a required column), issues no statement when
it rejects, and on success issues one statement whose SET clause covers
exactly the input map's columns followed by `WHERE id = ?`. -/
theorem Update_validates_like_Create (c : CRUD) (id : String) (data : List (String × Val)) :
    ((c.Update id data).2 = (c.Create data).2)
    ∧ ((∃ p ∈ c.Structure, p.2.NOT_NULL = "true" ∧ p.2.DEFAULT = ""
          ∧ p.2.AUTO_INCREMENT ≠ "true" ∧ data.lookup p.1 = none) →
        (c.Update id data).1 = [] ∧ (c.Update id data).2.isSome = true)
    ∧ ((c.Update id data).2 = none →
        (c.Update id data).1
          = [{ query := "UPDATE " ++ c.Table ++ " SET "
                ++ String.intercalate ", " (data.map (fun p => p.1 ++ " = ?"))
                ++ " WHERE id = ?",
               args := data.map (fun p => some p.2) ++ [some (Val.str id)] }]) := by
  refine ⟨?_, ?_, ?_⟩
  · cases hf : c.Structure.find? (requiredMissingB data) with
    | none => rw [CRUD.Update, CRUD.Create, hf]
    | some p => rw [CRUD.Update, CRUD.Create, hf]
  · rintro ⟨p, hp, hprop⟩
    have hsome : (c.Structure.find? (requiredMissingB data)).isSome :=
      List.find?_isSome.mpr ⟨p, hp, (requiredMissingB_iff data p).mpr hprop⟩
    cases hf : c.Structure.find? (requiredMissingB data) with
    | none => rw [hf] at hsome; simp at hsome
    | some q => rw [CRUD.Update, hf]; exact ⟨rfl, rfl⟩
  · intro hok
    cases hf : c.Structure.find? (requiredMissingB data) with
    | none => rw [CRUD.Update, hf]
    | some q => rw [CRUD.Update, hf] at hok; simp at hok

theorem Update_validates_like_Create_witness :
    (userCRUD.Update "2" []).1 = [] ∧ (userCRUD.Update "2" []).2.isSome = true :=
  (Update_validates_like_Create userCRUD "2" []).2.1 (by decide)

/-- Claim C7: for the user-record writer, `Delete "1"` returns the
permission error and issues no statement against the store; for every
other id, `Delete` delegates to the base deletion, issuing exactly the
delete-by-id statement. -/
theorem UserDelete_protected_row :
    ((UserCRUD.Delete "1").1 = []
      ∧ (UserCRUD.Delete "1").2 = some "deletion forbidden for user with ID = 1")
    ∧ (∀ id : String, id ≠ "1" →
        UserCRUD.Delete id
          = ([{ query := "DELETE FROM users WHERE id = ?",
                args := [some (Val.str id)] }], none)) := by
  refine ⟨⟨rfl, rfl⟩, ?_⟩
  intro id hid
  have hbeq : (id == "1") = false := by simp [hid]
  rw [UserCRUD.Delete, hbeq]
  rfl

theorem UserDelete_protected_row_witness :
    UserCRUD.Delete "2"
      = ([{ query := "DELETE FROM users WHERE id = ?",
            args := [some (Val.str "2")] }], none) :=
  UserDelete_protected_row.2 "2" (by decide)

/-- Looking a key up in a keyed map of an association list with distinct
keys returns the image of that key's entry. -/
theorem lookup_map_fst_eq {γ : Type} (F : String × ColProps → String × γ)
    (hF : ∀ p, (F p).1 = p.1) :
    ∀ l : List (String × ColProps), (l.map Prod.fst).Nodup →
      ∀ p ∈ l, (l.map F).lookup p.1 = some (F p).2 := by
  intro l
  induction l with
  | nil => intro _ p hp; simp at hp
  | cons q l ih =>
    intro hnd p hp
    rw [List.map_cons, List.nodup_cons] at hnd
    obtain ⟨hq, hnd'⟩ := hnd
    rw [List.map_cons]
    rcases List.mem_cons.mp hp with rfl | hp'
    · rw [show F p = ((F p).1, (F p).2) from rfl, List.lookup_cons]
      have hb : (p.1 == (F p).1) = true := by simp [hF p]
      rw [hb]
    · have hne : p.1 ≠ q.1 := by
        intro hcontra
        exact hq (hcontra ▸ List.mem_map_of_mem Prod.fst hp')
      rw [show F q = ((F q).1, (F q).2) from rfl, List.lookup_cons]
      have hb : (p.1 == (F q).1) = false := by simp [hF q, hne]
      rw [hb]
      exact ih hnd' p hp'

/-- What `SHOW COLUMNS` reports for a structure column of a freshly
created table. -/
theorem createdLive_lookup (c : CRUD) (hnd : (c.Structure.map Prod.fst).Nodup)
    (p : String × ColProps) (hp : p ∈ c.Structure) :
    (createdLive c).lookup p.1
      = some { COL_TYPE := p.2.TYPE,
               NULL := if p.2.NOT_NULL == "true" then "NO" else "YES",
               KEY := if p.1 == primaryKeyColumn c.Structure then "PRI" else "",
               DEFAULT := p.2.DEFAULT,
               EXTRA := if p.2.AUTO_INCREMENT == "true" then "auto_increment" else "" } :=
  @lookup_map_fst_eq LiveCol
    (fun q => (q.1,
      { COL_TYPE := q.2.TYPE,
        NULL := if q.2.NOT_NULL == "true" then "NO" else "YES",
        KEY := if q.1 == primaryKeyColumn c.Structure then "PRI" else "",
        DEFAULT := q.2.DEFAULT,
        EXTRA := if q.2.AUTO_INCREMENT == "true" then "auto_increment" else "" }))
    (fun _ => rfl) c.Structure hnd p hp

/-- Against the live schema of a freshly created table, the reconciliation
loop issues no modify or add statement for any sub-list of the
structure. -/
theorem alterStmtsFor_createdLive (c : CRUD) (hnd : (c.Structure.map Prod.fst).Nodup) :
    ∀ l : List (String × ColProps), (∀ p ∈ l, p ∈ c.Structure) →
      alterStmtsFor c (createdLive c) l = [] := by
  intro l
  induction l with
  | nil => intro _; rfl
  | cons p rest ih =>
    intro hmem
    have hp : p ∈ c.Structure := hmem p (List.mem_cons_self p rest)
    rw [alterStmtsFor, createdLive_lookup c hnd p hp,
        ih (fun q hq => hmem q (List.mem_cons_of_mem p hq))]
    by_cases hb : p.2.NOT_NULL == "true"
    · simp [hb]
    · simp [hb]

theorem foldl_pk_acc :
    ∀ l : List (String × ColProps),
      (∀ p ∈ l, (p.2.AUTO_INCREMENT == "true") = false) → ∀ acc : String,
      l.foldl (fun acc p => if p.2.AUTO_INCREMENT == "true" then p.1 else acc) acc = acc
  | [], _, _ => rfl
  | p :: rest, h, acc => by
    rw [List.foldl_cons, h p (List.mem_cons_self p rest)]
    simp only [Bool.false_eq_true, if_false]
    exact foldl_pk_acc rest (fun q hq => h q (List.mem_cons_of_mem p hq)) acc

theorem foldl_pk_single :
    ∀ (l : List (String × ColProps)) (x : String × ColProps),
      l.filter (fun p => p.2.AUTO_INCREMENT == "true") = [x] → ∀ acc : String,
      l.foldl (fun acc p => if p.2.AUTO_INCREMENT == "true" then p.1 else acc) acc = x.1
  | [], x, h => by simp at h
  | p :: rest, x, h => by
    intro acc
    rw [List.foldl_cons, List.filter_cons] at *
    by_cases hp : (p.2.AUTO_INCREMENT == "true") = true
    · rw [hp] at h ⊢
      simp only [if_true] at h ⊢
      simp only [List.cons.injEq] at h
      obtain ⟨rfl, hrest⟩ := h
      exact foldl_pk_acc rest
        (fun q hq => by simpa using List.filter_eq_nil_iff.mp hrest q hq) p.1
    · have hp' : (p.2.AUTO_INCREMENT == "true") = false := by simpa using hp
      rw [hp'] at h ⊢
      simp only [Bool.false_eq_true, if_false] at h ⊢
      exact foldl_pk_single rest x h acc

/-- Against the live schema of a freshly created table with at most one
auto-increment column, the primary-key loop issues no statement. -/
theorem primaryKeyStmtFor_createdLive (c : CRUD)
    (hnd : (c.Structure.map Prod.fst).Nodup)
    (hone : (c.Structure.filter (fun p => p.2.AUTO_INCREMENT == "true")).length ≤ 1) :
    primaryKeyStmtFor c (createdLive c) c.Structure = [] := by
  cases hfil : c.Structure.filter (fun p => p.2.AUTO_INCREMENT == "true") with
  | nil =>
    have hall : ∀ p ∈ c.Structure, (p.2.AUTO_INCREMENT == "true") = false := by
      intro p hp
      simpa using List.filter_eq_nil_iff.mp hfil p hp
    have aux : ∀ l : List (String × ColProps), (∀ p ∈ l, p ∈ c.Structure) →
        primaryKeyStmtFor c (createdLive c) l = [] := by
      intro l
      induction l with
      | nil => intro _; rfl
      | cons p rest ih =>
        intro hmem
        rw [primaryKeyStmtFor, hall p (hmem p (List.mem_cons_self p rest))]
        simp only [Bool.false_eq_true, if_false]
        exact ih (fun q hq => hmem q (List.mem_cons_of_mem p hq))
    exact aux c.Structure (fun p hp => hp)
  | cons x t =>
    cases t with
    | cons y t2 => rw [hfil] at hone; simp at hone
    | nil =>
      have hpk : primaryKeyColumn c.Structure = x.1 :=
        foldl_pk_single c.Structure x hfil ""
      have aux : ∀ l : List (String × ColProps), (∀ p ∈ l, p ∈ c.Structure) →
          primaryKeyStmtFor c (createdLive c) l = [] := by
        intro l
        induction l with
        | nil => intro _; rfl
        | cons p rest ih =>
          intro hmem
          have hpmem : p ∈ c.Structure := hmem p (List.mem_cons_self p rest)
          by_cases hq : (p.2.AUTO_INCREMENT == "true") = true
          · have hpx : p = x := by
              have hmemf : p ∈ c.Structure.filter
                  (fun p => p.2.AUTO_INCREMENT == "true") :=
                List.mem_filter.mpr ⟨hpmem, hq⟩
              rw [hfil] at hmemf
              simpa using hmemf
            subst hpx
            rw [primaryKeyStmtFor, hq]
            simp only [if_true]
            rw [createdLive_lookup c hnd p hpmem, hpk]
            simp
          · have hq' : (p.2.AUTO_INCREMENT == "true") = false := by simpa using hq
            rw [primaryKeyStmtFor, hq']
            simp only [Bool.false_eq_true, if_false]
            exact ih (fun q hqm => hmem q (List.mem_cons_of_mem p hqm))
      exact aux c.Structure (fun p hp => hp)

/-- Claim C8: `Synchronize` is idempotent — for any descriptor with
distinct column names and at most one auto-increment column (the
descriptor invariant, and what the Go map type itself guarantees for the
keys), a first run against a missing table issues exactly the create
statement, and a second run against the live schema that create statement
produced issues zero data-definition statements. -/
theorem Synchronize_idempotent (c : CRUD)
    (hnd : (c.Structure.map Prod.fst).Nodup)
    (hone : (c.Structure.filter (fun p => p.2.AUTO_INCREMENT == "true")).length ≤ 1) :
    c.Synchronize none = [createTableQuery c]
    ∧ c.Synchronize (some (createdLive c)) = [] := by
  constructor
  · rfl
  · show alterStmtsFor c (createdLive c) c.Structure
        ++ primaryKeyStmtFor c (createdLive c) c.Structure = []
    rw [alterStmtsFor_createdLive c hnd c.Structure (fun p hp => hp),
        primaryKeyStmtFor_createdLive c hnd hone]
    rfl

theorem Synchronize_idempotent_witness :
    (userCRUD.Structure.map Prod.fst).Nodup
    ∧ (userCRUD.Structure.filter (fun p => p.2.AUTO_INCREMENT == "true")).length ≤ 1
    ∧ userCRUD.Synchronize (some (createdLive userCRUD)) = [] :=
  ⟨by decide, by decide, (Synchronize_idempotent userCRUD (by decide) (by decide)).2⟩

/-- Claim C9: for a descriptor in which no column has AUTO_INCREMENT set
to `"true"`, the create statement issued when the table does not exist
still carries the primary-key clause with an empty column name — it ends
in `, PRIMARY KEY ())`. -/
theorem Synchronize_no_autoinc_malformed_pk (c : CRUD)
    (h : ∀ p ∈ c.Structure, p.2.AUTO_INCREMENT ≠ "true") :
    c.Synchronize none
      = ["CREATE TABLE " ++ c.Table ++ " ("
          ++ String.intercalate ", " (c.Structure.map (fun p => fieldDef p.1 p.2))
          ++ ", PRIMARY KEY ())"]
    ∧ ∃ s, c.Synchronize none = [s ++ ", PRIMARY KEY ())"] := by
  have hall : ∀ p ∈ c.Structure, (p.2.AUTO_INCREMENT == "true") = false := by
    intro p hp
    simpa using h p hp
  have hpk : primaryKeyColumn c.Structure = "" :=
    foldl_pk_acc c.Structure hall ""
  have hq : c.Synchronize none
      = ["CREATE TABLE " ++ c.Table ++ " ("
          ++ String.intercalate ", " (c.Structure.map (fun p => fieldDef p.1 p.2))
          ++ ", PRIMARY KEY (" ++ "" ++ "))"] := by
    show [createTableQuery c] = _
    rw [createTableQuery, hpk]
  constructor
  · rw [hq, String.append_empty, String.append_assoc]
    rfl
  · exact ⟨"CREATE TABLE " ++ c.Table ++ " ("
        ++ String.intercalate ", " (c.Structure.map (fun p => fieldDef p.1 p.2)), by
      rw [hq, String.append_empty, String.append_assoc]
      rfl⟩

theorem Synchronize_no_autoinc_malformed_pk_witness :
    ∃ s, CRUD.Synchronize
        { Table := "things",
          Structure := [("name", { TYPE := "varchar(255)", NOT_NULL := "true" })] } none
      = [s ++ ", PRIMARY KEY ())"] :=
  (Synchronize_no_autoinc_malformed_pk
    { Table := "things",
      Structure := [("name", { TYPE := "varchar(255)", NOT_NULL := "true" })] }
    (by decide)).2

end Scrud
